import Mathlib

/-!
Verification of the humanization feedback loop of harbor-lite.

Embedded source files:
* `src/workers/python/utils/zerogpt.py` — the `ZeroGPTClient.check` detector
  adapter.  Its interaction with the outside world (API key lookup, HTTP
  request, JSON decoding) is modelled by an explicit environment value
  `DetectorEnv` describing what the outside world does on one call; the
  body of `check` is translated faithfully on top of it.  The Python
  `try/except` block is embedded as a function into `Except String`
  (`ZeroGPTClient.tryBody`) whose error is caught by `ZeroGPTClient.check`,
  so `check` itself is a total function: it never propagates an exception.
* `src/workers/python/pipelines/humanization_pipeline.py` — the
  `HumanizationPipeline.run` loop.  The two collaborators are oracles:
  the humanizer (Rewriter) is a function of the call index, the current
  text and the citations, and the detector environment of the i-th
  `zerogpt.check` call is `zerogpt i` (call 0 is the initial check, call i
  is the check of iteration i).  The Python `while iteration <
  max_iterations` loop is embedded with the fuel
  `fuel = max_iterations - iteration` (clamped at 0 by `Int.toNat`, which
  also matches Python's behaviour for a negative `max_iterations`: the
  loop body never runs).  `time.sleep(1)` and `print` have no effect on
  the result and are dropped.

Scores are Python numbers compared with `>=`/`>`; they are embedded as
`Int` (the sources only read, compare and take maxima of them).
-/

/-- A citation record.  The loop treats citations as opaque and only
forwards them to the humanizer on every call (`CitationSet` in the spec). -/
abbrev Citation := String

/-- The JSON object found under the key `data` of a ZeroGPT response
(`data['data']` in `zerogpt.py`).  A field is `none` when the key is
absent, matching Python's `dict.get(key, 0)` defaulting. -/
structure ZData where
  is_human_written : Option Int
  is_gpt_generated : Option Int
deriving DecidableEq, Repr

/-- A decoded JSON response body of the ZeroGPT API, restricted to the
keys `zerogpt.py` reads: `success` (truthiness), presence of `data`, and
the legacy `fakePercentage` fallback key. -/
structure ZResponse where
  success : Bool
  data : Option ZData
  fakePercentage : Option Int
deriving DecidableEq, Repr

/-- What the outside world does on one `ZeroGPTClient.check` call:
the API key is missing (`noKey`, checked before the `try` block);
`requests.post`/`raise_for_status` raises (`httpError`); `response.json()`
raises or the decoded value is not dict-shaped so attribute access raises
(`badJson`); or a decoded JSON body is obtained (`ok`). -/
inductive DetectorEnv where
  | noKey : DetectorEnv
  | httpError (msg : String) : DetectorEnv
  | badJson (msg : String) : DetectorEnv
  | ok (r : ZResponse) : DetectorEnv
deriving DecidableEq, Repr

/-- The dictionary returned by `ZeroGPTClient.check`.  Optional fields
model keys that are present in some return statements of `check` and
absent in others (and absent in the dictionary built by the pipeline's
post-loop return). -/
structure DetectorResult where
  human_percentage : Int
  fake_percentage : Option Int
  raw : Option ZResponse
  error : Option String
deriving DecidableEq, Repr

/-- The set of keys present in a `DetectorResult` dictionary, in the
order the source writes them. -/
def DetectorResult.keys (r : DetectorResult) : List String :=
  "human_percentage" ::
    ((if r.fake_percentage.isSome then ["fake_percentage"] else []) ++
      (if r.raw.isSome then ["raw"] else []) ++
      (if r.error.isSome then ["error"] else []))

/-- The response-parsing part of `zerogpt.py` lines 34-47:
`if data.get('success') and 'data' in data:` read `is_human_written` and
`is_gpt_generated` with default `0`; otherwise fall back to
`fakePercentage` (default `0`) and `human = 100 - fake`; return the
dictionary with `human_percentage`, `fake_percentage` and `raw`. -/
def ZeroGPTClient.parse (data : ZResponse) : DetectorResult :=
  match data.success, data.data with
  | true, some d =>
      { human_percentage := d.is_human_written.getD 0
        fake_percentage := some (d.is_gpt_generated.getD 0)
        raw := some data
        error := none }
  | _, _ =>
      let fp := data.fakePercentage.getD 0
      { human_percentage := 100 - fp
        fake_percentage := some fp
        raw := some data
        error := none }

/-- The `try` block of `ZeroGPTClient.check`: an HTTP failure or a
malformed response raises (returns `.error`), a decoded response is
parsed.  The `noKey` case never reaches the `try` block (it returns
before it in `check`). -/
def ZeroGPTClient.tryBody : DetectorEnv → Except String DetectorResult
  | .noKey => .error "unreachable: the missing-key test precedes the try block"
  | .httpError msg => .error msg
  | .badJson msg => .error msg
  | .ok r => .ok (ZeroGPTClient.parse r)

/-- `ZeroGPTClient.check` (`zerogpt.py` lines 11-51).  With no API key it
returns the mock score `{"human_percentage": 100, "fake_percentage": 0}`;
otherwise it runs the `try` block and catches any exception, returning
the fail-open fallback `{"human_percentage": 100, "fake_percentage": 0,
"error": str(e)}`.  It is a total function: no exception escapes it. -/
def ZeroGPTClient.check (env : DetectorEnv) : DetectorResult :=
  match env with
  | .noKey =>
      { human_percentage := 100, fake_percentage := some 0, raw := none, error := none }
  | env =>
      match ZeroGPTClient.tryBody env with
      | .ok r => r
      | .error e =>
          { human_percentage := 100, fake_percentage := some 0, raw := none, error := some e }

/-- The effective score of the i-th detector call of a run. -/
def scoreAt (zerogpt : Nat → DetectorEnv) (i : Nat) : Int :=
  (ZeroGPTClient.check (zerogpt i)).human_percentage

/-- One entry of the pipeline's `history` list:
`{"iteration": i, "score": s}`. -/
structure HistEntry where
  iteration : Nat
  score : Int
deriving DecidableEq, Repr

/-- The mutable state of the `while` loop of `HumanizationPipeline.run`:
`iteration`, `current_text`, `best_score`, `best_text`, `history`
(`current_score` is assigned before the loop and never reassigned inside
it, so it is not part of the loop state). -/
structure LoopState where
  iteration : Nat
  current_text : String
  best_score : Int
  best_text : String
  history : List HistEntry
deriving DecidableEq, Repr

/-- The dictionary returned by `HumanizationPipeline.run`.  On the early
exit the source returns the detector's whole response dictionary as
`final_score`; after the loop it builds `{"human_percentage": v}`; both
shapes live in `DetectorResult`. -/
structure RunResult where
  humanized_text : String
  final_score : DetectorResult
  iterations : Nat
  history : List HistEntry
deriving DecidableEq, Repr

/-- One pass of the `while` body of `HumanizationPipeline.run`
(`humanization_pipeline.py` lines 31-52): increment `iteration`, call
the humanizer on the current text with the citations, score the new
text with the detector, append `{"iteration": iteration, "score":
new_score}` to `history`, set `current_text := new_text`, and update
`best_score` and `best_text` together under the single test
`new_score > best_score`. -/
def HumanizationPipeline.loopStep (humanizer : Nat → String → List Citation → String)
    (zerogpt : Nat → DetectorEnv) (citations : List Citation) (st : LoopState) : LoopState :=
  let iteration := st.iteration + 1
  let new_text := humanizer iteration st.current_text citations
  let new_score := scoreAt zerogpt iteration
  { iteration := iteration
    current_text := new_text
    best_score := if new_score > st.best_score then new_score else st.best_score
    best_text := if new_score > st.best_score then new_text else st.best_text
    history := st.history ++ [⟨iteration, new_score⟩] }

/-- The `while iteration < max_iterations` loop of
`HumanizationPipeline.run` (`humanization_pipeline.py` lines 30-60),
with `fuel = max_iterations - iteration` as the decreasing measure: run
the body, then `break` when the iteration's `new_score` (the score of
detector call `st.iteration + 1`) reaches `target_score`. -/
def HumanizationPipeline.loop (humanizer : Nat → String → List Citation → String)
    (zerogpt : Nat → DetectorEnv) (citations : List Citation) (target_score : Int) :
    Nat → LoopState → LoopState
  | 0, st => st
  | fuel + 1, st =>
    let st' := HumanizationPipeline.loopStep humanizer zerogpt citations st
    if scoreAt zerogpt (st.iteration + 1) ≥ target_score then st'
    else HumanizationPipeline.loop humanizer zerogpt citations target_score fuel st'

/-- `HumanizationPipeline.run` (`humanization_pipeline.py` lines 6-71).
Initialise `best_score := 0`, `best_text := current_text`; run the
initial check; if `current_score >= target_score` return immediately
with the full `initial_check` dictionary as `final_score`, `iterations
= 0` and a one-entry history.  Otherwise run the loop (fuel
`max_iterations.toNat`, so a negative budget runs zero iterations, as in
Python), then return `current_text` when `current_score >= target_score`
else `best_text` — note `current_score` is the *initial* score, the
source never reassigns it inside the loop — and likewise for the score,
wrapped as `{"human_percentage": v}`. -/
def HumanizationPipeline.run (humanizer : Nat → String → List Citation → String)
    (zerogpt : Nat → DetectorEnv) (thesis_text : String) (citations : List Citation)
    (max_iterations : Int) (target_score : Int) : RunResult :=
  let current_text := thesis_text
  let best_score : Int := 0
  let best_text := current_text
  let initial_check := ZeroGPTClient.check (zerogpt 0)
  let current_score := initial_check.human_percentage
  if current_score ≥ target_score then
    { humanized_text := current_text
      final_score := initial_check
      iterations := 0
      history := [⟨0, current_score⟩] }
  else
    let history := [⟨0, current_score⟩]
    let st := HumanizationPipeline.loop humanizer zerogpt citations target_score
      max_iterations.toNat
      { iteration := 0, current_text := current_text, best_score := best_score,
        best_text := best_text, history := history }
    let final_text := if current_score ≥ target_score then st.current_text else st.best_text
    let final_score_val := if current_score ≥ target_score then current_score else st.best_score
    { humanized_text := final_text
      final_score := { human_percentage := final_score_val, fake_percentage := none,
                       raw := none, error := none }
      iterations := st.iteration
      history := st.history }

/-- The text held in `current_text` after `j` further loop iterations,
starting from iteration index `it` with text `text`: iteration `it + 1`
rewrites `text`, and so on. -/
def HumanizationPipeline.textAfter (humanizer : Nat → String → List Citation → String)
    (citations : List Citation) (it : Nat) (text : String) : Nat → String
  | 0 => text
  | j + 1 => HumanizationPipeline.textAfter humanizer citations (it + 1)
      (humanizer (it + 1) text citations) j

/-- A well-formed detector environment reporting a human score of `s`. -/
def okScore (s : Int) : DetectorEnv :=
  .ok { success := true
        data := some { is_human_written := some s, is_gpt_generated := some (100 - s) }
        fakePercentage := none }

/-- A detector oracle whose i-th call succeeds with the i-th score of
the list (score 0 past the end of the list). -/
def envsOf (scores : List Int) : Nat → DetectorEnv :=
  fun i => okScore (scores.getD i 0)

/-- A concrete humanizer oracle: the i-th call returns the text `rw<i>`. -/
def humA : Nat → String → List Citation → String :=
  fun i _ _ => "rw" ++ Nat.repr i

/-- A second concrete humanizer oracle, used to show results that do not
depend on the humanizer. -/
def humB : Nat → String → List Citation → String :=
  fun i _ _ => "other" ++ Nat.repr i

theorem check_noKey_human : (ZeroGPTClient.check .noKey).human_percentage = 100 := rfl

theorem check_httpError_human (msg : String) :
    (ZeroGPTClient.check (.httpError msg)).human_percentage = 100 := rfl

theorem check_badJson_human (msg : String) :
    (ZeroGPTClient.check (.badJson msg)).human_percentage = 100 := rfl

/-- Claim C7: `ZeroGPTClient.check` never lets an error escape to its
caller — in this embedding it is a total function into `DetectorResult`
(the `try/except` catches every exception of `tryBody`) — and on each of
its internal failure modes (missing API key, HTTP/network error,
malformed response body) it returns the fail-open fallback with
`human_percentage = 100`. -/
theorem C7_detector_fail_open :
    (ZeroGPTClient.check .noKey).human_percentage = 100 ∧
    (∀ msg : String, (ZeroGPTClient.check (.httpError msg)).human_percentage = 100) ∧
    (∀ msg : String, (ZeroGPTClient.check (.badJson msg)).human_percentage = 100) :=
  ⟨check_noKey_human, check_httpError_human, check_badJson_human⟩

/-- Claim C4: when the initial detection score already meets the target,
`run` returns immediately: zero iterations, the original text, a
one-entry history (the iteration-0 evaluation), and the result does not
depend on the humanizer oracle at all (no Rewriter call is made). -/
theorem C4_early_exit (humanizer humanizer2 : Nat → String → List Citation → String)
    (zerogpt : Nat → DetectorEnv) (thesis_text : String) (citations : List Citation)
    (max_iterations target_score : Int)
    (h : (ZeroGPTClient.check (zerogpt 0)).human_percentage ≥ target_score) :
    (HumanizationPipeline.run humanizer zerogpt thesis_text citations
        max_iterations target_score).iterations = 0 ∧
    (HumanizationPipeline.run humanizer zerogpt thesis_text citations
        max_iterations target_score).humanized_text = thesis_text ∧
    (HumanizationPipeline.run humanizer zerogpt thesis_text citations
        max_iterations target_score).history =
      [⟨0, (ZeroGPTClient.check (zerogpt 0)).human_percentage⟩] ∧
    HumanizationPipeline.run humanizer zerogpt thesis_text citations
        max_iterations target_score =
      HumanizationPipeline.run humanizer2 zerogpt thesis_text citations
        max_iterations target_score := by
  simp [HumanizationPipeline.run, h]

/-- Witness for C4 at a concrete input: initial score 80, target 70. -/
theorem C4_early_exit_witness :
    (ZeroGPTClient.check (envsOf [80] 0)).human_percentage ≥ 70 ∧
    ((HumanizationPipeline.run humA (envsOf [80]) "t4" [] 5 70).iterations = 0 ∧
     (HumanizationPipeline.run humA (envsOf [80]) "t4" [] 5 70).humanized_text = "t4" ∧
     (HumanizationPipeline.run humA (envsOf [80]) "t4" [] 5 70).history =
       [⟨0, (ZeroGPTClient.check (envsOf [80] 0)).human_percentage⟩] ∧
     HumanizationPipeline.run humA (envsOf [80]) "t4" [] 5 70 =
       HumanizationPipeline.run humB (envsOf [80]) "t4" [] 5 70) :=
  ⟨by decide, C4_early_exit humA humB (envsOf [80]) "t4" [] 5 70 (by decide)⟩

/-- Claim C1, evaluated at the failing input: text `t1`, target 70,
`max_iterations = 1`, detector scores 50 (initial) then 40.  The loop
never meets the target, the maximum score over the history entries is 50
(at iteration 0), yet the returned `final_score.human_percentage` is 40:
`best_score` starts at `0` instead of the initial score, so the
iteration-0 entry never takes part in the best-tracking. -/
theorem C1_best_excludes_initial :
    (HumanizationPipeline.run humA (envsOf [50, 40]) "t1" [] 1 70).history =
      [⟨0, 50⟩, ⟨1, 40⟩] ∧
    (HumanizationPipeline.run humA (envsOf [50, 40]) "t1" [] 1 70).final_score.human_percentage
      = 40 := by
  decide

/-- Claim C2, evaluated at the failing input: initial score 60, one
rewrite scoring 41 (strictly decreasing), `max_iterations = 1`, target
70.  The claim says the initial text `orig` is returned; the code
returns the first rewrite `rw1`, because `best_score` starts at `0` and
the first rewrite's score 41 beats it. -/
theorem C2_returns_rewrite_not_initial :
    (HumanizationPipeline.run humA (envsOf [60, 41]) "orig" [] 1 70).humanized_text = "rw1" ∧
    ("rw1" : String) ≠ "orig" := by
  decide

/-- Claim C3, evaluated at the failing input: scores 55 (initial), 30,
25, target 70, `max_iterations = 2`.  The loop exhausts its budget, the
final current score (25) is below target, and the best-scoring candidate
seen is the initial text with 55 — yet the code returns the iteration-1
rewrite with score 30, a worse result than the best observed: `best`
excludes the initial candidate, and the post-loop test compares the
stale initial `current_score`. -/
theorem C3_returns_worse_than_best_observed :
    (HumanizationPipeline.run humA (envsOf [55, 30, 25]) "base" [] 2 70).history =
      [⟨0, 55⟩, ⟨1, 30⟩, ⟨2, 25⟩] ∧
    (HumanizationPipeline.run humA (envsOf [55, 30, 25]) "base" [] 2 70).humanized_text
      = "rw1" ∧
    (HumanizationPipeline.run humA (envsOf [55, 30, 25]) "base" [] 2 70).final_score.human_percentage
      = 30 := by
  decide

/-- Claim C8, evaluated at the failing input: `max_iterations = 0`,
initial score 50, target 70.  The loop body never runs and the original
*text* is returned with `iterations = 0`, as the claim says — but the
returned score is `best_score = 0`, not the original candidate's score
50: `best_score` is initialised to `0`, not to the initial score. -/
theorem C8_zero_budget_score_is_zero :
    HumanizationPipeline.run humA (envsOf [50]) "t8" [] 0 70 =
      { humanized_text := "t8"
        final_score := { human_percentage := 0, fake_percentage := none,
                         raw := none, error := none }
        iterations := 0
        history := [⟨0, 50⟩] } := by
  decide

/-- Claim C6, counterexample: calling `run` with `max_iterations = -1`
(and a detector reporting 50 against target 70) is not rejected — there
is no argument validation in the source and `run` has no error outcome
at all.  The call returns a normal result whose history records the
detector's score, so a Detector call *was* made, contradicting the
claim that the invocation is rejected before any collaborator call. -/
theorem C6_no_validation_counterexample :
    HumanizationPipeline.run humA (envsOf [50]) "t6" [] (-1) 70 =
      { humanized_text := "t6"
        final_score := { human_percentage := 0, fake_percentage := none,
                         raw := none, error := none }
        iterations := 0
        history := [⟨0, 50⟩] } := by
  decide

/-- Claim C6 as amended: `run` performs no argument validation; a call
with `max_iterations < 0` behaves exactly like one with
`max_iterations = 0` (the Detector is still called once and the loop
body never executes), and no error is raised. -/
theorem C6_negative_budget_behaves_like_zero
    (humanizer : Nat → String → List Citation → String) (zerogpt : Nat → DetectorEnv)
    (thesis_text : String) (citations : List Citation)
    (max_iterations target_score : Int) (h : max_iterations < 0) :
    HumanizationPipeline.run humanizer zerogpt thesis_text citations
        max_iterations target_score =
      HumanizationPipeline.run humanizer zerogpt thesis_text citations 0 target_score := by
  unfold HumanizationPipeline.run
  rw [Int.toNat_of_nonpos h.le, Int.toNat_zero]

/-- Witness for the amended C6 at a concrete input. -/
theorem C6_negative_budget_witness :
    (-1 : Int) < 0 ∧
    HumanizationPipeline.run humA (envsOf [50]) "t6w" [] (-1) 70 =
      HumanizationPipeline.run humA (envsOf [50]) "t6w" [] 0 70 :=
  ⟨by decide,
   C6_negative_budget_behaves_like_zero humA (envsOf [50]) "t6w" [] (-1) 70 (by decide)⟩

theorem loop_succ (humanizer : Nat → String → List Citation → String)
    (zerogpt : Nat → DetectorEnv) (citations : List Citation) (target_score : Int)
    (fuel : Nat) (st : LoopState) :
    HumanizationPipeline.loop humanizer zerogpt citations target_score (fuel + 1) st =
      if scoreAt zerogpt (st.iteration + 1) ≥ target_score
      then HumanizationPipeline.loopStep humanizer zerogpt citations st
      else HumanizationPipeline.loop humanizer zerogpt citations target_score fuel
        (HumanizationPipeline.loopStep humanizer zerogpt citations st) := rfl

theorem loopStep_iteration (humanizer : Nat → String → List Citation → String)
    (zerogpt : Nat → DetectorEnv) (citations : List Citation) (st : LoopState) :
    (HumanizationPipeline.loopStep humanizer zerogpt citations st).iteration =
      st.iteration + 1 := rfl

theorem loopStep_history_length (humanizer : Nat → String → List Citation → String)
    (zerogpt : Nat → DetectorEnv) (citations : List Citation) (st : LoopState) :
    (HumanizationPipeline.loopStep humanizer zerogpt citations st).history.length =
      st.history.length + 1 := by
  simp [HumanizationPipeline.loopStep]

/-- Loop invariant: the history length stays `iteration + 1`, and the
iteration counter advances by at most `fuel`. -/
theorem loop_invariant (humanizer : Nat → String → List Citation → String)
    (zerogpt : Nat → DetectorEnv) (citations : List Citation) (target_score : Int) :
    ∀ (fuel : Nat) (st : LoopState), st.history.length = st.iteration + 1 →
      (HumanizationPipeline.loop humanizer zerogpt citations target_score fuel st).history.length
        = (HumanizationPipeline.loop humanizer zerogpt citations target_score fuel st).iteration
          + 1
      ∧ (HumanizationPipeline.loop humanizer zerogpt citations target_score fuel st).iteration
          ≤ st.iteration + fuel := by
  intro fuel
  induction fuel with
  | zero =>
      intro st h
      exact ⟨h, Nat.le_refl st.iteration⟩
  | succ n ih =>
      intro st h
      rw [loop_succ]
      have hstep : (HumanizationPipeline.loopStep humanizer zerogpt citations st).history.length
          = (HumanizationPipeline.loopStep humanizer zerogpt citations st).iteration + 1 := by
        rw [loopStep_history_length, loopStep_iteration, h]
      by_cases hc : scoreAt zerogpt (st.iteration + 1) ≥ target_score
      · rw [if_pos hc]
        refine ⟨hstep, ?_⟩
        rw [loopStep_iteration]
        omega
      · rw [if_neg hc]
        obtain ⟨h1, h2⟩ := ih (HumanizationPipeline.loopStep humanizer zerogpt citations st) hstep
        rw [loopStep_iteration] at h2
        exact ⟨h1, by omega⟩

/-- Claim C5: every run satisfies `history.length = iterations + 1`, and
with a non-negative budget `N = max_iterations`, `iterations ≤ N` and
`history.length ≤ N + 1`. -/
theorem C5_history_length_invariant (humanizer : Nat → String → List Citation → String)
    (zerogpt : Nat → DetectorEnv) (thesis_text : String) (citations : List Citation)
    (max_iterations target_score : Int) (h : 0 ≤ max_iterations) :
    (HumanizationPipeline.run humanizer zerogpt thesis_text citations
        max_iterations target_score).history.length =
      (HumanizationPipeline.run humanizer zerogpt thesis_text citations
        max_iterations target_score).iterations + 1 ∧
    ((HumanizationPipeline.run humanizer zerogpt thesis_text citations
        max_iterations target_score).iterations : Int) ≤ max_iterations ∧
    ((HumanizationPipeline.run humanizer zerogpt thesis_text citations
        max_iterations target_score).history.length : Int) ≤ max_iterations + 1 := by
  have key := loop_invariant humanizer zerogpt citations target_score max_iterations.toNat
    ⟨0, thesis_text, 0, thesis_text,
      [⟨0, (ZeroGPTClient.check (zerogpt 0)).human_percentage⟩]⟩ (by simp)
  obtain ⟨k1, k2⟩ := key
  have k2z : (HumanizationPipeline.loop humanizer zerogpt citations target_score
      max_iterations.toNat
      ⟨0, thesis_text, 0, thesis_text,
        [⟨0, (ZeroGPTClient.check (zerogpt 0)).human_percentage⟩]⟩).iteration
      ≤ max_iterations.toNat := by
    have hz : (⟨0, thesis_text, 0, thesis_text,
        [⟨0, (ZeroGPTClient.check (zerogpt 0)).human_percentage⟩]⟩ : LoopState).iteration
        = 0 := rfl
    omega
  simp only [HumanizationPipeline.run]
  split
  · refine ⟨rfl, ?_, ?_⟩ <;> simp <;> omega
  · refine ⟨k1, ?_, ?_⟩
    · dsimp only
      omega
    · dsimp only
      omega

/-- Witness for C5 at a concrete input (budget 2, scores 45 then 30
then 20, target 70). -/
theorem C5_history_length_witness :
    (0 : Int) ≤ 2 ∧
    ((HumanizationPipeline.run humA (envsOf [45, 30, 20]) "t5" [] 2 70).history.length =
      (HumanizationPipeline.run humA (envsOf [45, 30, 20]) "t5" [] 2 70).iterations + 1 ∧
    ((HumanizationPipeline.run humA (envsOf [45, 30, 20]) "t5" [] 2 70).iterations : Int) ≤ 2 ∧
    ((HumanizationPipeline.run humA (envsOf [45, 30, 20]) "t5" [] 2 70).history.length : Int)
      ≤ 2 + 1) :=
  ⟨by decide, C5_history_length_invariant humA (envsOf [45, 30, 20]) "t5" [] 2 70 (by decide)⟩

/-- Claim C10: the shape of `final_score` depends on the exit path.  On
the early exit (initial score at or above target) `run` returns the
detector's whole response dictionary — whatever keys it carries —
whereas on every post-loop path `final_score` carries only the
`human_percentage` key. -/
theorem C10_final_score_shape (humanizer : Nat → String → List Citation → String)
    (zerogpt : Nat → DetectorEnv) (thesis_text : String) (citations : List Citation)
    (max_iterations target_score : Int) :
    ((ZeroGPTClient.check (zerogpt 0)).human_percentage ≥ target_score →
      (HumanizationPipeline.run humanizer zerogpt thesis_text citations
        max_iterations target_score).final_score = ZeroGPTClient.check (zerogpt 0)) ∧
    ((ZeroGPTClient.check (zerogpt 0)).human_percentage < target_score →
      (HumanizationPipeline.run humanizer zerogpt thesis_text citations
        max_iterations target_score).final_score.keys = ["human_percentage"]) := by
  constructor
  · intro h
    simp [HumanizationPipeline.run, h]
  · intro h
    simp [HumanizationPipeline.run, not_le.mpr h, DetectorResult.keys]

/-- Witness for C10: an early exit (initial score 80 ≥ 70) returns the
detector's full dictionary (here carrying `fake_percentage` and `raw`),
and a post-loop exit (scores 52 then 41 against target 70) returns a
dictionary with only the `human_percentage` key. -/
theorem C10_final_score_shape_witness :
    ((HumanizationPipeline.run humA (envsOf [80]) "ta" [] 5 70).final_score =
      ZeroGPTClient.check (envsOf [80] 0)) ∧
    ((HumanizationPipeline.run humA (envsOf [52, 41]) "tb" [] 1 70).final_score.keys =
      ["human_percentage"]) :=
  ⟨(C10_final_score_shape humA (envsOf [80]) "ta" [] 5 70).1 (by decide),
   (C10_final_score_shape humA (envsOf [52, 41]) "tb" [] 1 70).2 (by decide)⟩

/-- If the scores of the next `k` loop iterations stay below the target,
the score of the iteration after them is exactly 100, the target is at
most 100, and the best score so far is below 100, then the loop breaks
at iteration `st.iteration + k + 1` with that iteration's rewrite as the
best pair, scored 100. -/
theorem loop_break_at_100 (humanizer : Nat → String → List Citation → String)
    (zerogpt : Nat → DetectorEnv) (citations : List Citation) (target_score : Int)
    (hts : target_score ≤ 100) :
    ∀ (k fuel : Nat) (st : LoopState), k < fuel →
      st.best_score < 100 →
      (∀ i : Nat, st.iteration < i → i ≤ st.iteration + k →
        scoreAt zerogpt i < target_score) →
      scoreAt zerogpt (st.iteration + k + 1) = 100 →
      (HumanizationPipeline.loop humanizer zerogpt citations target_score fuel st).iteration
          = st.iteration + k + 1 ∧
      (HumanizationPipeline.loop humanizer zerogpt citations target_score fuel st).best_score
          = 100 ∧
      (HumanizationPipeline.loop humanizer zerogpt citations target_score fuel st).best_text
          = HumanizationPipeline.textAfter humanizer citations st.iteration st.current_text
              (k + 1) := by
  intro k
  induction k with
  | zero =>
      intro fuel st hf hbs hmid hscore
      obtain ⟨n, rfl⟩ : ∃ n, fuel = n + 1 := ⟨fuel - 1, by omega⟩
      rw [loop_succ]
      have hs : scoreAt zerogpt (st.iteration + 1) = 100 := hscore
      rw [if_pos (by rw [hs]; exact hts)]
      have hgt : scoreAt zerogpt (st.iteration + 1) > st.best_score := by
        rw [hs]; exact hbs
      refine ⟨rfl, ?_, ?_⟩
      · show (if scoreAt zerogpt (st.iteration + 1) > st.best_score
            then scoreAt zerogpt (st.iteration + 1) else st.best_score) = 100
        rw [if_pos hgt, hs]
      · show (if scoreAt zerogpt (st.iteration + 1) > st.best_score
            then humanizer (st.iteration + 1) st.current_text citations else st.best_text)
            = HumanizationPipeline.textAfter humanizer citations st.iteration
                st.current_text 1
        rw [if_pos hgt]
        rfl
  | succ k ih =>
      intro fuel st hf hbs hmid hscore
      obtain ⟨n, rfl⟩ : ∃ n, fuel = n + 1 := ⟨fuel - 1, by omega⟩
      rw [loop_succ]
      have hlt : scoreAt zerogpt (st.iteration + 1) < target_score :=
        hmid (st.iteration + 1) (by omega) (by omega)
      rw [if_neg (not_le.mpr hlt)]
      have hit : (HumanizationPipeline.loopStep humanizer zerogpt citations st).iteration
          = st.iteration + 1 := rfl
      have hbs' : (HumanizationPipeline.loopStep humanizer zerogpt citations st).best_score
          < 100 := by
        show (if scoreAt zerogpt (st.iteration + 1) > st.best_score
            then scoreAt zerogpt (st.iteration + 1) else st.best_score) < 100
        split
        · omega
        · exact hbs
      have hmid' : ∀ i : Nat,
          (HumanizationPipeline.loopStep humanizer zerogpt citations st).iteration < i →
          i ≤ (HumanizationPipeline.loopStep humanizer zerogpt citations st).iteration + k →
          scoreAt zerogpt i < target_score := by
        intro i h1 h2
        rw [hit] at h1 h2
        exact hmid i (by omega) (by omega)
      have hscore' : scoreAt zerogpt
          ((HumanizationPipeline.loopStep humanizer zerogpt citations st).iteration + k + 1)
          = 100 := by
        rw [hit]
        have he : st.iteration + 1 + k + 1 = st.iteration + (k + 1) + 1 := by omega
        rw [he]
        exact hscore
      obtain ⟨g1, g2, g3⟩ := ih n
        (HumanizationPipeline.loopStep humanizer zerogpt citations st)
        (by omega) hbs' hmid' hscore'
      refine ⟨?_, g2, ?_⟩
      · rw [g1, hit]
        omega
      · rw [g3, hit]
        rfl

/-- Claim C9: when the detector fails (missing key, HTTP error or
malformed response) on the mid-loop call of iteration `k + 1`, after an
initial score and `k` iteration scores all below the target, and the
target is at most 100 with budget at least `k + 1`, that call's
effective score is the fail-open fallback 100, so the loop stops right
there and its candidate — the iteration-(k+1) rewrite — is returned as a
success with score 100. -/
theorem C9_detector_failure_midloop (humanizer : Nat → String → List Citation → String)
    (zerogpt : Nat → DetectorEnv) (thesis_text : String) (citations : List Citation)
    (max_iterations target_score : Int) (k : Nat)
    (hts : target_score ≤ 100)
    (hmi : (k : Int) + 1 ≤ max_iterations)
    (hinit : (ZeroGPTClient.check (zerogpt 0)).human_percentage < target_score)
    (hmid : ∀ i : Nat, 1 ≤ i → i ≤ k → scoreAt zerogpt i < target_score)
    (hfail : zerogpt (k + 1) = DetectorEnv.noKey ∨
      (∃ msg, zerogpt (k + 1) = DetectorEnv.httpError msg) ∨
      (∃ msg, zerogpt (k + 1) = DetectorEnv.badJson msg)) :
    (HumanizationPipeline.run humanizer zerogpt thesis_text citations
        max_iterations target_score).iterations = k + 1 ∧
    (HumanizationPipeline.run humanizer zerogpt thesis_text citations
        max_iterations target_score).final_score.human_percentage = 100 ∧
    (HumanizationPipeline.run humanizer zerogpt thesis_text citations
        max_iterations target_score).humanized_text =
      HumanizationPipeline.textAfter humanizer citations 0 thesis_text (k + 1) := by
  have hscore : scoreAt zerogpt (k + 1) = 100 := by
    rcases hfail with hk | ⟨m, hk⟩ | ⟨m, hk⟩
    · simp only [scoreAt, hk]
      exact check_noKey_human
    · simp only [scoreAt, hk]
      exact check_httpError_human m
    · simp only [scoreAt, hk]
      exact check_badJson_human m
  have hst0it : (⟨0, thesis_text, 0, thesis_text,
      [⟨0, (ZeroGPTClient.check (zerogpt 0)).human_percentage⟩]⟩ : LoopState).iteration
      = 0 := rfl
  have key := loop_break_at_100 humanizer zerogpt citations target_score hts k
    max_iterations.toNat
    ⟨0, thesis_text, 0, thesis_text,
      [⟨0, (ZeroGPTClient.check (zerogpt 0)).human_percentage⟩]⟩
    (by omega)
    (show (0 : Int) < 100 by norm_num)
    (by
      intro i h1 h2
      rw [hst0it] at h1 h2
      exact hmid i h1 (by omega))
    (by
      rw [hst0it]
      have he : 0 + k + 1 = k + 1 := by omega
      rw [he]
      exact hscore)
  obtain ⟨g1, g2, g3⟩ := key
  have hinit' : ¬ (ZeroGPTClient.check (zerogpt 0)).human_percentage ≥ target_score :=
    not_le.mpr hinit
  simp only [HumanizationPipeline.run, if_neg hinit']
  refine ⟨?_, ?_, ?_⟩
  · show (HumanizationPipeline.loop humanizer zerogpt citations target_score
        max_iterations.toNat
        ⟨0, thesis_text, 0, thesis_text,
          [⟨0, (ZeroGPTClient.check (zerogpt 0)).human_percentage⟩]⟩).iteration = k + 1
    rw [g1, hst0it]
    omega
  · show (HumanizationPipeline.loop humanizer zerogpt citations target_score
        max_iterations.toNat
        ⟨0, thesis_text, 0, thesis_text,
          [⟨0, (ZeroGPTClient.check (zerogpt 0)).human_percentage⟩]⟩).best_score = 100
    exact g2
  · show (HumanizationPipeline.loop humanizer zerogpt citations target_score
        max_iterations.toNat
        ⟨0, thesis_text, 0, thesis_text,
          [⟨0, (ZeroGPTClient.check (zerogpt 0)).human_percentage⟩]⟩).best_text =
      HumanizationPipeline.textAfter humanizer citations 0 thesis_text (k + 1)
    exact g3

/-- Witness for C9: initial score 50 against target 70, budget 2, and
the detector of iteration 1 failing with an HTTP error; the loop stops
at iteration 1 with the iteration-1 rewrite scored 100. -/
theorem C9_detector_failure_witness :
    (HumanizationPipeline.run humA
        (fun i => if i = 0 then okScore 50 else DetectorEnv.httpError "net down")
        "t9" [] 2 70).iterations = 1 ∧
    (HumanizationPipeline.run humA
        (fun i => if i = 0 then okScore 50 else DetectorEnv.httpError "net down")
        "t9" [] 2 70).final_score.human_percentage = 100 ∧
    (HumanizationPipeline.run humA
        (fun i => if i = 0 then okScore 50 else DetectorEnv.httpError "net down")
        "t9" [] 2 70).humanized_text =
      HumanizationPipeline.textAfter humA [] 0 "t9" 1 :=
  C9_detector_failure_midloop humA
    (fun i => if i = 0 then okScore 50 else DetectorEnv.httpError "net down")
    "t9" [] 2 70 0 (by decide) (by decide) (by decide)
    (fun i h1 h2 => absurd (h1.trans h2) (by decide))
    (Or.inr (Or.inl ⟨"net down", rfl⟩))
